import Mathlib

/-!
Verification of the Iron Coder project model (`src/project/mod.rs`).

The development shallowly embeds the Project data model and its operations.
External effects (file dialogs, directory listings, copy failures) are passed
in as explicit environments; filesystem writes performed by an operation are
returned as an explicit effect list; Rust panics (`unwrap`, out-of-bounds
indexing) are a distinguished outcome constructor.
-/

namespace IronCoder

/-- Modelled from the spec: `src/board.rs` is not among the sources.  A Board
is a hardware descriptor with a "is main/programmable board" role flag, an
optional board-support-package directory, an optional project-template
directory, and an optional ordered list of required crate names.  Boards are
value types: structural equality of the defining fields decides whether two
boards are the same board. -/
structure Board where
  name : String
  is_main_board : Bool
  bsp_dir : Option String
  template_dir : Option String
  required_crates_field : Option (List String)
deriving DecidableEq, Repr

/-- Accessor mirroring `Board::required_crates()`. -/
def Board.required_crates (b : Board) : Option (List String) :=
  b.required_crates_field

/-- Accessor mirroring `Board::get_template_dir()`. -/
def Board.get_template_dir (b : Board) : Option String :=
  b.template_dir

/-- Modelled from the spec: `src/project/system.rs` is not among the sources.
As used by `project/mod.rs`, a System holds one optional main-board slot
(`main_board`) and an ordered peripheral board list (`boards`). -/
structure System where
  main_board : Option Board
  boards : List Board
deriving DecidableEq, Repr

/-- Mirrors `System::default()`: empty slot, empty peripheral list. -/
def System.defaultSystem : System :=
  { main_board := none, boards := [] }

/-- Modelled from the spec: the text-editing widget (`app/code_editor.rs`) is
an external collaborator; only its default-reconstruction on clone and
deserialization matters here, so it is abstracted to its open-tab state. -/
structure CodeEditor where
  tabs : List String
deriving DecidableEq, Repr

/-- Mirrors `CodeEditor::default()`. -/
def CodeEditor.defaultEditor : CodeEditor :=
  { tabs := [] }

/-- Modelled from the spec: the view-state selector is an enumerated UI mode,
orthogonal to the core; `BoardsView` is the default used by
`Project::default()`. -/
inductive ProjectViewType where
  | BoardsView
  | EditorView
deriving DecidableEq, Repr

/-- Modelled from the spec: the receiving end of the output channel of an
in-flight Command Pipeline run, abstracted to an identifier. -/
structure ChannelReceiver where
  id : Nat
deriving DecidableEq, Repr

/-- The Project struct of `project/mod.rs` (lines 36-49).  `code_editor`,
`terminal_buffer` and `receiver` carry `#[serde(skip)]`. -/
structure Project where
  name : String
  location : Option String
  system : System
  code_editor : CodeEditor
  terminal_buffer : String
  receiver : Option ChannelReceiver
  current_view : ProjectViewType
deriving DecidableEq, Repr

/-- Mirrors `impl Default for Project` (lines 51-63). -/
def Project.defaultProject : Project :=
  { name := ""
    location := none
    system := System.defaultSystem
    code_editor := CodeEditor.defaultEditor
    terminal_buffer := ""
    receiver := none
    current_view := ProjectViewType.BoardsView }

/-- Mirrors `impl Clone for Project` (lines 65-77): `code_editor` is rebuilt
as a default and `receiver` is dropped; every other field is cloned. -/
def Project.clone (p : Project) : Project :=
  { name := p.name
    location := p.location
    system := p.system
    code_editor := CodeEditor.defaultEditor
    terminal_buffer := p.terminal_buffer
    receiver := none
    current_view := p.current_view }

/-- Mirrors `Project::info_logger` (lines 83-87): log, then append the
message plus a newline to the terminal transcript. -/
def Project.info_logger (p : Project) (msg : String) : Project :=
  { p with terminal_buffer := p.terminal_buffer ++ msg ++ "\n" }

/-- The serialized image of a Project: exactly the fields without
`#[serde(skip)]` (lines 36-49). -/
structure ProjectManifest where
  name : String
  location : Option String
  system : System
  current_view : ProjectViewType
deriving DecidableEq, Repr

/-- Serialization keeps the non-skipped fields. -/
def serializeProject (p : Project) : ProjectManifest :=
  { name := p.name
    location := p.location
    system := p.system
    current_view := p.current_view }

/-- Deserialization (`#[serde(default)]` plus the three `#[serde(skip)]`
fields) rebuilds the skipped fields from `Project::default()`. -/
def deserializeProject (m : ProjectManifest) : Project :=
  { name := m.name
    location := m.location
    system := m.system
    code_editor := CodeEditor.defaultEditor
    terminal_buffer := ""
    receiver := none
    current_view := m.current_view }

/-- Mirrors `Project::add_board` (lines 114-134).  A main board is stored in
the main slot unless one is present (log only, no mutation); a non-main board
is appended to the peripheral list unless an equal board is already there, in
which case only a transcript notice is appended. -/
def Project.add_board (p : Project) (board : Board) : Project :=
  match board.is_main_board with
  | true =>
    match p.system.main_board with
    | some _ => p
    | none => { p with system := { p.system with main_board := some board } }
  | false =>
    if board ∈ p.system.boards then
      { p with terminal_buffer :=
          p.terminal_buffer ++ "project already contains that board\n" }
    else
      { p with system := { p.system with boards := p.system.boards ++ [board] } }

/-- The fixed manifest file name (`PROJECT_FILE_NAME`, line 31). -/
def PROJECT_FILE_NAME : String :=
  ".ironcoder.toml"

/-- `PathBuf::join` on the string model of paths. -/
def pathJoin (dir entry : String) : String :=
  dir ++ "/" ++ entry

/-- Result of a Project operation: normal return, an `io::Result` error
propagated with `?`, or a Rust panic (which would abort the process). -/
inductive Outcome (α : Type) where
  | ok (val : α)
  | err (msg : String)
  | panicked (msg : String)
deriving DecidableEq, Repr

/-- A filesystem write effect performed by an operation. -/
inductive FsOp where
  | copyItem (src : String) (dst : String)
  | writeManifest (path : String) (contents : ProjectManifest)
  | createNewFile (path : String)
deriving DecidableEq, Repr

/-- External collaborators of `save_as`/`save`: the directory picker's answer,
directory listings, and which template entries fail to copy. -/
structure SaveEnv where
  pickedFolder : Option String
  dirEntries : String → List String
  copyFails : String → Bool

/-- Mirrors the early-return loop of `save_as` (lines 178-185): scan the
directory entries in order, stopping at the first one named
`PROJECT_FILE_NAME`. -/
def manifestInDir : List String → Bool
  | [] => false
  | entry :: rest =>
    if entry = PROJECT_FILE_NAME then true else manifestInDir rest

/-- The located branch of `Project::save` (lines 210-216): serialize the
whole Project and write it to the fixed-named file in the location. -/
def save_with_location (p : Project) (project_folder : String) :
    Outcome Project × List FsOp :=
  (Outcome.ok p,
   [FsOp.writeManifest (pathJoin project_folder PROJECT_FILE_NAME)
      (serializeProject p)])

/-- Mirrors `Project::save_as` (lines 175-203).  Dialog cancelled: log only.
A manifest already in the picked folder: transcript warning, no write, no
location update.  Otherwise the location is set, `system.boards[0]` is
indexed (a panic when the peripheral list is empty), the entries of that
board's template directory (if any) are copied one by one — a failing copy is
warned about and skipped — and finally `self.save()` writes the manifest. -/
def Project.save_as (p : Project) (env : SaveEnv) : Outcome Project × List FsOp :=
  match env.pickedFolder with
  | none => (Outcome.ok p, [])
  | some project_folder =>
    if manifestInDir (env.dirEntries project_folder) then
      (Outcome.ok
        { p with terminal_buffer :=
            p.terminal_buffer ++ "beware of overwriting and existing project file!\n" },
       [])
    else
      let p1 := { p with location := some project_folder }
      match p1.system.boards with
      | [] =>
        (Outcome.panicked "index out of bounds: the len is 0 but the index is 0", [])
      | b0 :: _ =>
        match b0.get_template_dir with
        | some template_dir =>
          let copies := (env.dirEntries template_dir).filterMap fun entry =>
            if env.copyFails entry then none
            else some (FsOp.copyItem (pathJoin template_dir entry) project_folder)
          let saved := save_with_location p1 project_folder
          (saved.1, copies ++ saved.2)
        | none => save_with_location p1 project_folder

/-- Mirrors `Project::save` (lines 206-218): no location delegates to
`save_as`, otherwise the manifest is written to the stored location. -/
def Project.save (p : Project) (env : SaveEnv) : Outcome Project × List FsOp :=
  match p.location with
  | none => p.save_as env
  | some project_folder => save_with_location p project_folder

/-- External collaborators of `open`: the folder picker's answer, the result
of `fs::read_to_string`, and the result of `toml::from_str`. -/
structure OpenEnv where
  pickedFolder : Option String
  readToString : String → Except String String
  parseManifest : String → Option ProjectManifest

/-- Mirrors `Project::open` (lines 153-173).  Cancelled picker: log only.  A
read failure propagates with `?`.  A parse failure logs a warning, appends
one transcript line via `info_logger`, and returns `Ok(())` with the Project
otherwise untouched.  A successful parse replaces the Project wholesale and
records the picked folder as its location. -/
def Project.openProject (p : Project) (env : OpenEnv) : Outcome Project :=
  match env.pickedFolder with
  | none => Outcome.ok p
  | some project_folder =>
    match env.readToString (pathJoin project_folder PROJECT_FILE_NAME) with
    | Except.error e => Outcome.err e
    | Except.ok toml_str =>
      match env.parseManifest toml_str with
      | none => Outcome.ok (p.info_logger "error opening project")
      | some m =>
        Outcome.ok { deserializeProject m with location := some project_folder }

/-- External collaborators of `new_file`: the save dialog's answer and
whether a file already exists at a path. -/
structure NewFileEnv where
  savePath : Option String
  fileExists : String → Bool

/-- Mirrors `Project::new_file` (lines 243-254).  No location: transcript
notice, `Ok`.  Dialog cancelled: warn only, `Ok`.  Otherwise
`fs::File::create_new` creates the file only if none exists at the path; an
existing file makes it return the `AlreadyExists` error, created and
truncating nothing, and `?` propagates that error. -/
def Project.new_file (p : Project) (env : NewFileEnv) : Outcome Project × List FsOp :=
  match p.location with
  | none =>
    (Outcome.ok (p.info_logger "must save project before adding files/directories"), [])
  | some _ =>
    match env.savePath with
    | some pathbuf =>
      if env.fileExists pathbuf then
        (Outcome.err "AlreadyExists", [])
      else
        (Outcome.ok p, [FsOp.createNewFile pathbuf])
    | none => (Outcome.ok p, [])

/-- One invocation of the external build tool: program plus argument list,
as assembled by the `duct::cmd!` macro calls. -/
structure Cmd where
  program : String
  args : List String
deriving DecidableEq, Repr

/-- The `cargo add` invocation built for one crate (lines 292-296). -/
def cargoAddCmd (project_folder c : String) : Cmd :=
  { program := "cargo"
    args := ["-Z", "unstable-options", "-C", project_folder, "add", c] }

/-- The `cargo init` invocation (lines 297-299). -/
def cargoInitCmd (project_folder projectName : String) : Cmd :=
  { program := "cargo"
    args := ["-Z", "unstable-options", "-C", project_folder,
             "init", "--name", projectName, "--vcs", "none"] }

/-- The command submissions of `Project::add_crates_to_project`
(lines 282-305): each element is one call to `run_background_commands`, i.e.
one Command Pipeline run.  The loop walks `system.boards` (the peripheral
list only — the main-board slot is never consulted) and, for each board
declaring required crates, submits one run of the init command followed by
one `add` per crate.  The debug loop over `do_stuff_with_pm2` performs no
command submission and is modelled separately. -/
def Project.add_crates_to_project_runs (p : Project) : List (List Cmd) :=
  match p.location with
  | none => []
  | some project_folder =>
    p.system.boards.filterMap fun b =>
      b.required_crates.map fun rc =>
        cargoInitCmd project_folder p.name :: rc.map (cargoAddCmd project_folder)

/-! ### Concrete inputs used in counterexamples and witnesses -/

/-- The spec's example main board: requires crates `x` and `y`. -/
def boardA : Board :=
  { name := "BoardA", is_main_board := true, bsp_dir := none,
    template_dir := none, required_crates_field := some ["x", "y"] }

/-- The spec's example peripheral board: requires crate `z`. -/
def boardB : Board :=
  { name := "BoardB", is_main_board := false, bsp_dir := none,
    template_dir := none, required_crates_field := some ["z"] }

/-- The spec's example project: `main = BoardA`, `peripheral = BoardB`,
location set. -/
def exampleProject : Project :=
  { name := "demo", location := some "/proj",
    system := { main_board := some boardA, boards := [boardB] },
    code_editor := CodeEditor.defaultEditor, terminal_buffer := "",
    receiver := none, current_view := ProjectViewType.BoardsView }

/-- A project whose peripheral list is empty (only a main board). -/
def noPeripheralsProject : Project :=
  { name := "p", location := none,
    system := { main_board := some boardA, boards := [] },
    code_editor := CodeEditor.defaultEditor, terminal_buffer := "",
    receiver := none, current_view := ProjectViewType.BoardsView }

/-- A picked folder with no entries at all (so no pre-existing manifest). -/
def freshFolderEnv : SaveEnv :=
  { pickedFolder := some "/target", dirEntries := fun _ => [],
    copyFails := fun _ => false }

/-- A main board that has a template directory. -/
def mainWithTemplate : Board :=
  { name := "MainT", is_main_board := true, bsp_dir := none,
    template_dir := some "/tmplA", required_crates_field := none }

/-- A peripheral board without a template directory. -/
def periphNoTemplate : Board :=
  { name := "PeriphN", is_main_board := false, bsp_dir := none,
    template_dir := none, required_crates_field := none }

/-- A project whose main board has a template directory but whose first
peripheral board does not. -/
def templateProject : Project :=
  { name := "t", location := none,
    system := { main_board := some mainWithTemplate, boards := [periphNoTemplate] },
    code_editor := CodeEditor.defaultEditor, terminal_buffer := "",
    receiver := none, current_view := ProjectViewType.BoardsView }

/-- Environment for `templateProject`: the picked target `/dst` is empty, the
main board's template directory `/tmplA` contains one entry. -/
def templateEnv : SaveEnv :=
  { pickedFolder := some "/dst",
    dirEntries := fun d => if d = "/tmplA" then ["main.rs"] else [],
    copyFails := fun _ => false }

/-- A peripheral board at index 0 that has a template directory `/t`. -/
def tmplBoard : Board :=
  { name := "B0", is_main_board := false, bsp_dir := none,
    template_dir := some "/t", required_crates_field := none }

/-- A project whose first peripheral board is `tmplBoard`. -/
def tmplProject : Project :=
  { name := "w", location := none,
    system := { main_board := none, boards := [tmplBoard] },
    code_editor := CodeEditor.defaultEditor, terminal_buffer := "",
    receiver := none, current_view := ProjectViewType.BoardsView }

/-- Environment for `tmplProject`: target `/dst2` is empty, template `/t`
holds two entries of which `bad.rs` fails to copy. -/
def tmplEnv : SaveEnv :=
  { pickedFolder := some "/dst2",
    dirEntries := fun d => if d = "/t" then ["good.rs", "bad.rs"] else [],
    copyFails := fun e => e == "bad.rs" }

/-- A picked folder that already contains the fixed-named manifest file. -/
def occupiedFolderEnv : SaveEnv :=
  { pickedFolder := some "/w",
    dirEntries := fun d => if d = "/w" then ["src", PROJECT_FILE_NAME] else [],
    copyFails := fun _ => false }

/-- An open environment whose manifest file reads fine but fails to parse. -/
def badParseEnv : OpenEnv :=
  { pickedFolder := some "/o",
    readToString := fun _ => Except.ok "garbage",
    parseManifest := fun _ => none }

/-- A non-main board used for the peripheral-deduplication witness. -/
def pB1 : Board :=
  { name := "P1", is_main_board := false, bsp_dir := none,
    template_dir := none, required_crates_field := none }

/-- A second non-main board, unequal to `pB1`. -/
def pB2 : Board :=
  { name := "P2", is_main_board := false, bsp_dir := none,
    template_dir := none, required_crates_field := none }

/-- A save-dialog answer naming a path at which a file already exists. -/
def clashNewFileEnv : NewFileEnv :=
  { savePath := some "/proj/main.rs",
    fileExists := fun x => x == "/proj/main.rs" }

/-! ### Theorems -/

/-- The tail call `self.save()` at line 202 runs with `location` just set, so
inlining `save_with_location` in `save_as` is faithful to the source. -/
theorem save_eq_save_with_location (p : Project) (env : SaveEnv) (f : String)
    (h : p.location = some f) : p.save env = save_with_location p f := by
  simp [Project.save, h]

/-- Claim C5: deserializing the serialization of any Project reproduces its
System (same main-board presence, same peripheral sequence), its name,
location and view, while the transient fields — terminal transcript, channel
receiver, code editor — are not serialized and come back as defaults. -/
theorem project_roundtrip_system_and_transients (p : Project) :
    (deserializeProject (serializeProject p)).system = p.system
    ∧ (deserializeProject (serializeProject p)).name = p.name
    ∧ (deserializeProject (serializeProject p)).location = p.location
    ∧ (deserializeProject (serializeProject p)).current_view = p.current_view
    ∧ (deserializeProject (serializeProject p)).terminal_buffer = ""
    ∧ (deserializeProject (serializeProject p)).receiver = none
    ∧ (deserializeProject (serializeProject p)).code_editor = CodeEditor.defaultEditor :=
  ⟨rfl, rfl, rfl, rfl, rfl, rfl, rfl⟩

/-- Claim C9: cloning a Project preserves its name, location, System and
terminal transcript, but the clone never retains the original's output
channel (its receiver is `none`) and gets a default code editor. -/
theorem clone_resets_channel_and_editor (p : Project) :
    p.clone.name = p.name
    ∧ p.clone.location = p.location
    ∧ p.clone.system = p.system
    ∧ p.clone.terminal_buffer = p.terminal_buffer
    ∧ p.clone.receiver = none
    ∧ p.clone.code_editor = CodeEditor.defaultEditor
    ∧ p.clone.current_view = p.current_view :=
  ⟨rfl, rfl, rfl, rfl, rfl, rfl, rfl⟩

/-- Claim C8: when the main-board slot is occupied, `add_board` with a board
flagged as a main board changes nothing: the existing main board and the
whole System (indeed the whole Project) stay as they were. -/
theorem add_board_second_main_rejected (p : Project) (b m : Board)
    (hmain : p.system.main_board = some m)
    (hb : b.is_main_board = true) :
    p.add_board b = p
    ∧ (p.add_board b).system.main_board = some m
    ∧ (p.add_board b).system = p.system := by
  have h : p.add_board b = p := by
    simp [Project.add_board, hb, hmain]
  exact ⟨h, by rw [h, hmain], by rw [h]⟩

/-- Witness for C8 at a concrete project whose main slot holds `boardA`. -/
theorem add_board_second_main_rejected_witness :
    noPeripheralsProject.system.main_board = some boardA
    ∧ mainWithTemplate.is_main_board = true
    ∧ noPeripheralsProject.add_board mainWithTemplate = noPeripheralsProject :=
  ⟨rfl, rfl, (add_board_second_main_rejected noPeripheralsProject
      mainWithTemplate boardA rfl rfl).1⟩

/-- Claim C10: with a location set, if the path picked in `new_file`'s save
dialog names an existing file, `new_file` performs no filesystem write (it
neither truncates nor overwrites the file) and returns the `AlreadyExists`
creation error: file creation uses create-new semantics. -/
theorem new_file_existing_path_errors (p : Project) (env : NewFileEnv)
    (loc path : String)
    (hloc : p.location = some loc)
    (hpath : env.savePath = some path)
    (hex : env.fileExists path = true) :
    p.new_file env = (Outcome.err "AlreadyExists", []) := by
  simp [Project.new_file, hloc, hpath, hex]

/-- Witness for C10: the example project and a dialog answer naming an
already-existing file. -/
theorem new_file_existing_path_errors_witness :
    exampleProject.location = some "/proj"
    ∧ clashNewFileEnv.savePath = some "/proj/main.rs"
    ∧ clashNewFileEnv.fileExists "/proj/main.rs" = true
    ∧ exampleProject.new_file clashNewFileEnv = (Outcome.err "AlreadyExists", []) :=
  ⟨rfl, rfl, rfl,
   new_file_existing_path_errors exampleProject clashNewFileEnv
     "/proj" "/proj/main.rs" rfl rfl rfl⟩

/-- Claim C4: when the picked directory already contains the fixed-named
manifest file, `save_as` writes nothing, leaves name, location and System
unchanged (the location stays unset if it was unset), appends one warning
line to the transcript and returns without error. -/
theorem save_as_refuses_existing_manifest (p : Project) (env : SaveEnv)
    (folder : String)
    (hpick : env.pickedFolder = some folder)
    (hman : manifestInDir (env.dirEntries folder) = true) :
    p.save_as env
      = (Outcome.ok { p with terminal_buffer :=
            p.terminal_buffer ++ "beware of overwriting and existing project file!\n" },
         [])
    ∧ (∀ q, (p.save_as env).1 = Outcome.ok q →
        q.location = p.location ∧ q.name = p.name ∧ q.system = p.system
        ∧ q.terminal_buffer
            = p.terminal_buffer ++ "beware of overwriting and existing project file!\n") := by
  have h : p.save_as env
      = (Outcome.ok { p with terminal_buffer :=
            p.terminal_buffer ++ "beware of overwriting and existing project file!\n" },
         []) := by
    simp [Project.save_as, hpick, hman]
  refine ⟨h, fun q hq => ?_⟩
  rw [h] at hq
  cases hq
  exact ⟨rfl, rfl, rfl, rfl⟩

/-- Witness for C4: default project, a picked folder whose listing contains
the manifest name. -/
theorem save_as_refuses_existing_manifest_witness :
    occupiedFolderEnv.pickedFolder = some "/w"
    ∧ manifestInDir (occupiedFolderEnv.dirEntries "/w") = true
    ∧ Project.defaultProject.save_as occupiedFolderEnv
        = (Outcome.ok { Project.defaultProject with terminal_buffer :=
              "beware of overwriting and existing project file!\n" },
           []) := by
  refine ⟨rfl, by decide, ?_⟩
  have h := (save_as_refuses_existing_manifest Project.defaultProject
      occupiedFolderEnv "/w" rfl (by decide)).1
  simpa using h

/-- Claim C7: starting from an empty peripheral list, adding two unequal
non-main boards yields the two-element list in insertion order; adding the
same non-main board twice yields a one-element list, the second call leaving
the System untouched and only appending the duplicate-board notice to the
transcript. -/
theorem add_board_peripheral_dedup (p : Project) (b1 b2 : Board)
    (hboards : p.system.boards = [])
    (h1 : b1.is_main_board = false)
    (h2 : b2.is_main_board = false)
    (hne : b1 ≠ b2) :
    ((p.add_board b1).add_board b2).system.boards = [b1, b2]
    ∧ ((p.add_board b1).add_board b1).system.boards = [b1]
    ∧ ((p.add_board b1).add_board b1).system = (p.add_board b1).system
    ∧ ((p.add_board b1).add_board b1).terminal_buffer
        = (p.add_board b1).terminal_buffer ++ "project already contains that board\n" := by
  have hne' : b2 ≠ b1 := Ne.symm hne
  have e1 : p.add_board b1
      = { p with system := { p.system with boards := [b1] } } := by
    simp [Project.add_board, h1, hboards]
  refine ⟨?_, ?_, ?_, ?_⟩
  · rw [e1]
    simp [Project.add_board, h2, hne']
  · rw [e1]
    simp [Project.add_board, h1]
  · rw [e1]
    simp [Project.add_board, h1]
  · rw [e1]
    simp [Project.add_board, h1]

/-- Witness for C7 at two concrete unequal non-main boards added to the
default (empty) project. -/
theorem add_board_peripheral_dedup_witness :
    Project.defaultProject.system.boards = []
    ∧ pB1.is_main_board = false
    ∧ pB2.is_main_board = false
    ∧ pB1 ≠ pB2
    ∧ ((Project.defaultProject.add_board pB1).add_board pB2).system.boards = [pB1, pB2]
    ∧ ((Project.defaultProject.add_board pB1).add_board pB1).system.boards = [pB1] := by
  have h := add_board_peripheral_dedup Project.defaultProject pB1 pB2
    rfl rfl rfl (by decide)
  exact ⟨rfl, rfl, rfl, by decide, h.1, h.2.1⟩

/-- Claim C6: when `open` reads a manifest whose contents fail to parse, the
current Project keeps its name, location and System, exactly one
user-visible line is appended to the transcript, and `open` returns `Ok`;
when the parse succeeds the Project is replaced wholesale and the picked
directory is recorded as its location. -/
theorem open_parse_failure_and_success (p : Project) (env : OpenEnv)
    (folder toml_str : String)
    (hpick : env.pickedFolder = some folder)
    (hread : env.readToString (pathJoin folder PROJECT_FILE_NAME)
        = Except.ok toml_str) :
    (env.parseManifest toml_str = none →
        p.openProject env = Outcome.ok (p.info_logger "error opening project")
        ∧ (p.info_logger "error opening project").name = p.name
        ∧ (p.info_logger "error opening project").location = p.location
        ∧ (p.info_logger "error opening project").system = p.system
        ∧ (p.info_logger "error opening project").terminal_buffer
            = p.terminal_buffer ++ "error opening project" ++ "\n")
    ∧ (∀ m, env.parseManifest toml_str = some m →
        p.openProject env
          = Outcome.ok { deserializeProject m with location := some folder }) := by
  constructor
  · intro hparse
    refine ⟨?_, rfl, rfl, rfl, by simp [Project.info_logger]⟩
    simp [Project.openProject, hpick, hread, hparse]
  · intro m hparse
    simp [Project.openProject, hpick, hread, hparse]

/-- Witness for C6 at a concrete environment whose manifest string fails to
parse: the default project survives with one extra transcript line. -/
theorem open_parse_failure_and_success_witness :
    badParseEnv.pickedFolder = some "/o"
    ∧ badParseEnv.readToString (pathJoin "/o" PROJECT_FILE_NAME)
        = Except.ok "garbage"
    ∧ badParseEnv.parseManifest "garbage" = none
    ∧ Project.defaultProject.openProject badParseEnv
        = Outcome.ok (Project.defaultProject.info_logger "error opening project") := by
  refine ⟨rfl, rfl, rfl, ?_⟩
  exact ((open_parse_failure_and_success Project.defaultProject badParseEnv
    "/o" "garbage" rfl rfl).1 rfl).1

/-- Claim C2 (code bug): the design says no error may terminate the process
and the operations never panic, but `save_as` evaluates `system.boards[0]`
whenever the picked folder holds no manifest; with an empty peripheral list —
for instance a project that has only a main board — that indexing panics and
aborts the process. -/
theorem save_as_panics_on_empty_peripheral_list :
    noPeripheralsProject.system.boards = []
    ∧ noPeripheralsProject.save_as freshFolderEnv
        = (Outcome.panicked "index out of bounds: the len is 0 but the index is 0", []) :=
  ⟨rfl, rfl⟩

/-- Claim C1 (counterexample): on the spec's own example — main board
requiring `x` and `y`, one peripheral requiring `z`, location `/proj` —
`add_crates_to_project` does not submit the single flattened run
`[init, add x, add y, add z]`; it submits one run per declaring peripheral
board and never visits the main board, here a single run `[init, add z]`. -/
theorem add_crates_example_not_single_flattened_run :
    exampleProject.add_crates_to_project_runs
        = [[cargoInitCmd "/proj" "demo", cargoAddCmd "/proj" "z"]]
    ∧ exampleProject.add_crates_to_project_runs
        ≠ [[cargoInitCmd "/proj" "demo", cargoAddCmd "/proj" "x",
            cargoAddCmd "/proj" "y", cargoAddCmd "/proj" "z"]] := by
  refine ⟨rfl, ?_⟩
  decide

/-- Auxiliary: mapping the optional crate list of each board and keeping the
hits produces one entry per board whose crate list is present. -/
theorem length_filterMap_required_crates (l : List Board)
    (g : Board → List String → List Cmd) :
    (l.filterMap fun b => b.required_crates.map (g b)).length
      = (l.filter fun b => b.required_crates.isSome).length := by
  induction l with
  | nil => rfl
  | cons b bs ih =>
    cases hrc : b.required_crates <;>
      simp [List.filterMap_cons, List.filter_cons, hrc, ih]

/-- Claim C1 (amended): with a location set, `add_crates_to_project` submits
one Command Pipeline run per peripheral board that declares required crates —
not one flattened run; each submitted run starts with the initialize-project
command followed by that board's `add` commands in declaration order, and the
main-board slot never contributes (its required crates are never installed). -/
theorem add_crates_runs_one_per_declaring_peripheral (p : Project)
    (folder : String) (h : p.location = some folder) :
    p.add_crates_to_project_runs.length
        = (p.system.boards.filter fun b => b.required_crates.isSome).length
    ∧ (∀ run ∈ p.add_crates_to_project_runs,
        run.head? = some (cargoInitCmd folder p.name))
    ∧ (∀ mb, (Project.add_crates_to_project_runs
          { p with system := { p.system with main_board := mb } })
        = p.add_crates_to_project_runs)
    ∧ (∀ b ∈ p.system.boards, ∀ rc, b.required_crates = some rc →
        (cargoInitCmd folder p.name :: rc.map (cargoAddCmd folder))
          ∈ p.add_crates_to_project_runs) := by
  have hruns : p.add_crates_to_project_runs
      = p.system.boards.filterMap fun b =>
          b.required_crates.map fun rc =>
            cargoInitCmd folder p.name :: rc.map (cargoAddCmd folder) := by
    simp [Project.add_crates_to_project_runs, h]
  refine ⟨?_, ?_, ?_, ?_⟩
  · rw [hruns]
    exact length_filterMap_required_crates p.system.boards
      (fun _ rc => cargoInitCmd folder p.name :: rc.map (cargoAddCmd folder))
  · intro run hrun
    rw [hruns] at hrun
    obtain ⟨b, _, hfb⟩ := List.mem_filterMap.mp hrun
    cases hrc : b.required_crates with
    | none => rw [hrc] at hfb; cases hfb
    | some rc =>
      rw [hrc] at hfb
      cases hfb
      rfl
  · intro mb
    rfl
  · intro b hb rc hrc
    rw [hruns]
    exact List.mem_filterMap.mpr ⟨b, hb, by rw [hrc]; rfl⟩

/-- Witness for the amended C1 at the spec's example project: exactly one of
its boards declares crates, so exactly one run is submitted. -/
theorem add_crates_runs_one_per_declaring_peripheral_witness :
    exampleProject.location = some "/proj"
    ∧ exampleProject.add_crates_to_project_runs.length
        = (exampleProject.system.boards.filter fun b => b.required_crates.isSome).length :=
  ⟨rfl, (add_crates_runs_one_per_declaring_peripheral exampleProject "/proj" rfl).1⟩

/-- Claim C3 (counterexample): a project whose main board has template
directory `/tmplA` (holding `main.rs`) but whose first peripheral board has
none: `save_as` into an empty folder copies nothing at all — the main
board's template is never consulted, only `system.boards[0]`'s. -/
theorem save_as_skips_main_board_template :
    templateProject.system.main_board = some mainWithTemplate
    ∧ mainWithTemplate.get_template_dir = some "/tmplA"
    ∧ templateEnv.dirEntries "/tmplA" = ["main.rs"]
    ∧ templateProject.save_as templateEnv
        = (Outcome.ok { templateProject with location := some "/dst" },
           [FsOp.writeManifest "/dst/.ironcoder.toml"
              (serializeProject { templateProject with location := some "/dst" })])
    ∧ FsOp.copyItem "/tmplA/main.rs" "/dst" ∉ (templateProject.save_as templateEnv).2 := by
  refine ⟨rfl, rfl, by decide, rfl, by decide⟩

/-- Claim C3 (amended): when the target holds no manifest, `save_as` copies
every entry of the FIRST PERIPHERAL board's template directory (not the main
board's) into the target before writing the manifest — provided the
peripheral list is nonempty — skipping any entry that fails to copy while
still copying the rest and still writing the manifest, without aborting. -/
theorem save_as_copies_first_peripheral_template (p : Project) (env : SaveEnv)
    (folder template_dir : String) (b0 : Board) (rest : List Board)
    (hpick : env.pickedFolder = some folder)
    (hman : manifestInDir (env.dirEntries folder) = false)
    (hboards : p.system.boards = b0 :: rest)
    (htmpl : b0.get_template_dir = some template_dir) :
    p.save_as env
      = (Outcome.ok { p with location := some folder },
         ((env.dirEntries template_dir).filterMap fun entry =>
            if env.copyFails entry then none
            else some (FsOp.copyItem (pathJoin template_dir entry) folder))
          ++ [FsOp.writeManifest (pathJoin folder PROJECT_FILE_NAME)
                (serializeProject { p with location := some folder })])
    ∧ (∀ entry ∈ env.dirEntries template_dir, env.copyFails entry = false →
        FsOp.copyItem (pathJoin template_dir entry) folder ∈ (p.save_as env).2)
    ∧ FsOp.writeManifest (pathJoin folder PROJECT_FILE_NAME)
          (serializeProject { p with location := some folder }) ∈ (p.save_as env).2
    ∧ (p.save_as env).1 = Outcome.ok { p with location := some folder } := by
  have heq : p.save_as env
      = (Outcome.ok { p with location := some folder },
         ((env.dirEntries template_dir).filterMap fun entry =>
            if env.copyFails entry then none
            else some (FsOp.copyItem (pathJoin template_dir entry) folder))
          ++ [FsOp.writeManifest (pathJoin folder PROJECT_FILE_NAME)
                (serializeProject { p with location := some folder })]) := by
    simp [Project.save_as, hpick, hman, hboards, htmpl, save_with_location]
  refine ⟨heq, ?_, ?_, ?_⟩
  · intro entry he hfail
    rw [heq]
    refine List.mem_append.mpr (Or.inl ?_)
    exact List.mem_filterMap.mpr ⟨entry, he, by simp [hfail]⟩
  · rw [heq]
    simp
  · rw [heq]

/-- Witness for the amended C3: a first peripheral board with template `/t`
holding `good.rs` and `bad.rs`, where copying `bad.rs` fails: `good.rs` is
still copied and the manifest is still written. -/
theorem save_as_copies_first_peripheral_template_witness :
    tmplEnv.pickedFolder = some "/dst2"
    ∧ manifestInDir (tmplEnv.dirEntries "/dst2") = false
    ∧ tmplProject.system.boards = [tmplBoard]
    ∧ tmplBoard.get_template_dir = some "/t"
    ∧ tmplProject.save_as tmplEnv
        = (Outcome.ok { tmplProject with location := some "/dst2" },
           [FsOp.copyItem "/t/good.rs" "/dst2",
            FsOp.writeManifest "/dst2/.ironcoder.toml"
              (serializeProject { tmplProject with location := some "/dst2" })]) := by
  refine ⟨rfl, by decide, rfl, rfl, ?_⟩
  have h := (save_as_copies_first_peripheral_template tmplProject tmplEnv
      "/dst2" "/t" tmplBoard [] rfl (by decide) rfl rfl).1
  rw [h]
  rfl

end IronCoder
